import Mathlib

/-!
Shallow embedding of the `whatsapp` repository (Django app) core:
`src/messaging/views.py` and the configuration it reads from
`src/whatsapp_sender/settings.py`.

HTTP request parameters, JSON fields and network outcomes are made
explicit: `request.GET.get(k)` becomes an `Option String` argument,
`requests.post`/`requests.get` outcomes become oracle functions passed
in (`Except` for calls whose exceptions the view catches), and Django
ORM state becomes an explicit list of `SmsWhatsAppLog` rows threaded
through each view.  Python `dict.get(k, d)` on parsed JSON becomes
`Option.getD`; `d[k]` (which raises `KeyError` when the key is absent)
becomes a `match` whose `none` branch produces an `Except.error`.
-/

namespace Whatsapp

/-- One row of the `SmsWhatsAppLog` table, restricted to the fields
`views.py` reads or writes.  `media_file` holds the attached media as
`(filename, binary content)` when a download succeeded, mirroring
`log.media_file.save(filename, ContentFile(content))`. -/
structure SmsWhatsAppLog where
  customer_name : Option String
  mobile : String
  template_name : String
  sent_text_message : String
  status : String
  message_type : String
  message_id : String
  content_type : String
  media_file : Option (String × String)
  sent_at : Nat
  deriving Repr, DecidableEq

/-- The `BulkJob` row fields read by `job_status`. -/
structure BulkJob where
  total_customers : Nat
  sent_count : Nat
  failed_count : Nat
  status : String
  deriving Repr, DecidableEq

/-- Modelled from the spec: `format_mobile` lives in `messaging/utils.py`,
which is absent from `src/`.  The spec's NumberNormalizer contract (§4.1)
requires a pure total function that strips formatting punctuation and
whitespace, applies a single country-code convention (the repo targets
India: `+91` in the spec's example, `Asia/Kolkata` in settings), is
idempotent, and returns an invalid sentinel when the input has no digits.
Here: keep only digits; no digits gives the sentinel `"invalid"`; with at
least ten digits the canonical form is `"91"` followed by the last ten
digits; shorter digit strings are returned as-is. -/
def format_mobile (raw : String) : String :=
  let digits := (raw.toList.filter Char.isDigit).asString
  if digits.length = 0 then "invalid"
  else if digits.length ≥ 10 then
    "91" ++ (digits.toList.drop (digits.length - 10)).asString
  else digits

/-! ### Outbound free-text send (`send_whatsapp_text`, views.py lines 23-46) -/

/-- The JSON body built by `send_whatsapp_text`:
`{"messaging_product": "whatsapp", "to": to_number, "type": "text",
"text": {"body": text_body}}`. -/
structure TextSendBody where
  messaging_product : String
  /-- the JSON key `"to"` (`to` is reserved in Lean) -/
  to_number : String
  msg_type : String
  text_body : String
  deriving Repr, DecidableEq

/-- The HTTP request `send_whatsapp_text` issues via `requests.post`. -/
structure ProviderRequest where
  method : String
  url : String
  headers : List (String × String)
  body : TextSendBody
  deriving Repr, DecidableEq

/-- `send_whatsapp_text` up to the point the request is issued
(views.py lines 23-44).  `if not access_token or not phone_number_id`
raises `RuntimeError`; Python string truthiness makes that the
empty-string test here. -/
def send_whatsapp_text_request (access_token phone_number_id : String)
    (to_number text_body : String) : Except String ProviderRequest :=
  if access_token = "" ∨ phone_number_id = "" then
    .error "Set WHATSAPP_ACCESS_TOKEN and WHATSAPP_PHONE_NUMBER_ID in settings.py"
  else
    .ok
      { method := "POST"
        url := "https://graph.facebook.com/v17.0/" ++ phone_number_id ++ "/messages"
        headers :=
          [("Authorization", "Bearer " ++ access_token),
           ("Content-Type", "application/json")]
        body :=
          { messaging_product := "whatsapp"
            to_number := to_number
            msg_type := "text"
            text_body := text_body } }

/-! ### Job status page (`job_status`, views.py lines 86-91) -/

/-- Rounding of `round(x, 2)` on the progress percentage, modelled as
exact rational rounding of the second decimal (Python rounds the nearest
double; ties, which cannot arise in the claims below, round half-up
here). -/
def round2 (q : ℚ) : ℚ := (⌊q * 100 + 1/2⌋ : ℚ) / 100

/-- The `progress` value `job_status` renders:
`round((job.sent_count / job.total_customers) * 100, 2)` when
`total_customers > 0`, else `0`. -/
def job_status_progress (job : BulkJob) : ℚ :=
  if job.total_customers > 0 then
    round2 ((job.sent_count : ℚ) / (job.total_customers : ℚ) * 100)
  else 0

/-! ### Report downloads (views.py lines 97-108) -/

/-- Response of the two report-download views. -/
inductive ReportResponse where
  | file (path : String) (download_filename : String)
  | http404 (msg : String)
  deriving Repr, DecidableEq

/-- `download_success_report`: serves the fixed path
`"success_report.xlsx"` (when it exists on disk, an oracle here) under
the attachment name `success_report_<job_id>.xlsx`. -/
def download_success_report (file_exists : String → Bool) (job_id : String) :
    ReportResponse :=
  let file_path := "success_report.xlsx"
  if file_exists file_path then
    .file file_path ("success_report_" ++ job_id ++ ".xlsx")
  else .http404 "Success report not found."

/-- `download_failed_report`: same shape with `"failed_report.xlsx"`. -/
def download_failed_report (file_exists : String → Bool) (job_id : String) :
    ReportResponse :=
  let file_path := "failed_report.xlsx"
  if file_exists file_path then
    .file file_path ("failed_report_" ++ job_id ++ ".xlsx")
  else .http404 "Failed report not found."

/-! ### Webhook GET verification (views.py lines 251-257) -/

/-- Response of the webhook GET branch: either the JSON echo
`{"hub.challenge": challenge}` (`challenge` may be absent, i.e. JSON
null) or `HttpResponseBadRequest("Invalid verification.")`. -/
inductive VerifyResponse where
  | challengeEcho (challenge : Option String)
  | badRequest (msg : String)
  deriving Repr, DecidableEq

/-- The GET branch of `whatsapp_webhook`: `hub.mode`, `hub.verify_token`
and `hub.challenge` are the query parameters (`none` when absent);
`verify_token` is `settings.WHATSAPP_VERIFY_TOKEN` (settings.py line
165), a configured string. -/
def whatsapp_webhook_get (verify_token : String)
    (mode token challenge : Option String) : VerifyResponse :=
  if mode = some "subscribe" ∧ token = some verify_token then
    .challengeEcho challenge
  else .badRequest "Invalid verification."

/-! ### Media download helper (`download_whatsapp_media`, views.py lines 353-380)

The two network calls are oracles: `metaFetch` models the
`requests.get` on `https://graph.facebook.com/v17.0/<media_id>` (its
JSON body on 2xx, an error for a raised exception, including
`raise_for_status`), `bytesFetch` the second `requests.get` on the URL
from the metadata.  The Python function swallows every exception and
returns `None`. -/

/-- The metadata JSON of step 1: `url` and `mime_type` are read with
`.get`, so both may be absent. -/
structure MediaMeta where
  url : Option String
  mime_type : Option String
  deriving Repr, DecidableEq

/-- Python renders `None` as the string `"None"` inside f-strings
(`meta_url`, `filename` when `media_id is None`). -/
def pyStr (o : Option String) : String := o.getD "None"

/-- Python's `str.strip()`: drop whitespace from both ends. -/
def pyStrip (s : String) : String :=
  ((s.toList.dropWhile Char.isWhitespace).reverse.dropWhile
    Char.isWhitespace).reverse.asString

/-- `download_whatsapp_media media_id`: step 1 fetches metadata, step 2
fetches the bytes at the metadata's `url`; any failure yields `none`.
On success returns `(filename, content)` with
`filename = "whatsapp_<media_id>.<extension>"` and the extension taken
from the mime type (`"bin"` when it has no `/`). -/
def download_whatsapp_media (metaFetch : String → Except String MediaMeta)
    (bytesFetch : Option String → Except String String)
    (media_id : Option String) : Option (String × String) :=
  match metaFetch (pyStr media_id) with
  | .error _ => none
  | .ok meta =>
    let mime_type := meta.mime_type.getD ""
    let extension :=
      if mime_type.contains '/' then (mime_type.splitOn "/").getLastD "bin"
      else "bin"
    match bytesFetch meta.url with
    | .error _ => none
    | .ok content => some ("whatsapp_" ++ pyStr media_id ++ "." ++ extension, content)

/-! ### Webhook POST payload shape (views.py lines 259-341)

The parsed JSON of one delivery.  Every `dict.get(k, default)` becomes
`Option.getD`, and the two `d[k]` subscripts (`msg["text"]`,
`interactive["button"]` / `interactive["list_reply"]`) are the only
places a malformed event raises (`KeyError`), aborting the whole
loop. -/

structure TextObj where
  body : Option String
  deriving Repr, DecidableEq

structure ButtonObj where
  text : Option String
  deriving Repr, DecidableEq

structure ListReplyObj where
  title : Option String
  deriving Repr, DecidableEq

structure InteractiveObj where
  itype : Option String
  button : Option ButtonObj
  list_reply : Option ListReplyObj
  deriving Repr, DecidableEq

instance : Inhabited InteractiveObj := ⟨⟨none, none, none⟩⟩

/-- The media sub-objects (`msg.get("image", {})` etc.); only `id` and,
for documents, `filename` are read. -/
structure MediaObj where
  media_id : Option String
  filename : Option String
  deriving Repr, DecidableEq

instance : Inhabited MediaObj := ⟨⟨none, none⟩⟩

/-- One element of `value["messages"]`.  `mfrom`, `mid`, `mtype` stand
for the JSON keys `"from"`, `"id"`, `"type"` (`from` is reserved in
Lean). -/
structure InboundMsg where
  mfrom : Option String
  mid : Option String
  mtype : Option String
  text : Option TextObj
  interactive : Option InteractiveObj
  image : Option MediaObj
  document : Option MediaObj
  video : Option MediaObj
  audio : Option MediaObj
  deriving Repr, DecidableEq

/-- One element of `value["contacts"]`; only
`contacts[0].get("profile", {}).get("name")` is read. -/
structure Contact where
  profile_name : Option String
  deriving Repr, DecidableEq

structure ChangeValue where
  messages : List InboundMsg
  contacts : List Contact
  deriving Repr, DecidableEq

structure Change where
  value : ChangeValue
  deriving Repr, DecidableEq

structure WebhookEntry where
  changes : List Change
  deriving Repr, DecidableEq

structure WebhookPayload where
  entry : List WebhookEntry
  deriving Repr, DecidableEq

/-- Oracles for the two media-download network calls, shared by every
message of a delivery. -/
structure MediaOracles where
  metaFetch : String → Except String MediaMeta
  bytesFetch : Option String → Except String String

/-- The `SmsWhatsAppLog` row the webhook creates for one inbound
message (the `objects.create(...)` call, views.py lines 324-333,
together with the subsequent `media_file.save` when a download
succeeded). -/
def mk_received_log (norm : String → String) (contacts : List Contact)
    (now : Nat) (msg : InboundMsg) (text_body content_type : String)
    (media_file : Option (String × String)) : SmsWhatsAppLog :=
  { customer_name :=
      match contacts with
      | [] => some ""
      | c :: _ => c.profile_name
    mobile := norm (msg.mfrom.getD "")
    template_name := "incoming"
    sent_text_message := text_body
    status := "Received"
    message_type := "Received"
    message_id := msg.mid.getD ""
    content_type := content_type
    media_file := media_file
    sent_at := now }

/-- Processing of one inbound message (the body of `for msg in
messages`, views.py lines 269-339), up to and including the values
stored in the created `SmsWhatsAppLog` row.  `Except.error` is a raised
`KeyError` (a malformed event); the caller's single `try/except` turns
it into a 400 for the whole delivery.  `now` is the `sent_at` timestamp
the row is created with. -/
def process_inbound_msg (norm : String → String) (dl : MediaOracles)
    (contacts : List Contact) (now : Nat) (msg : InboundMsg) :
    Except String SmsWhatsAppLog :=
  let msg_type := msg.mtype.getD "text"
  let mkLog := mk_received_log norm contacts now msg
  if msg_type = "text" then
    match msg.text with
    | none => .error "KeyError: text"
    | some t => .ok (mkLog (t.body.getD "") "text" none)
  else if msg_type = "interactive" then
    let interactive := msg.interactive.getD default
    if interactive.itype = some "button" then
      match interactive.button with
      | none => .error "KeyError: button"
      | some b => .ok (mkLog (b.text.getD "") "interactive" none)
    else if interactive.itype = some "list_reply" then
      match interactive.list_reply with
      | none => .error "KeyError: list_reply"
      | some l => .ok (mkLog (l.title.getD "") "interactive" none)
    else .ok (mkLog "" "interactive" none)
  else if msg_type = "image" then
    let image_info := msg.image.getD default
    let media_id := image_info.media_id
    .ok (mkLog ("[Image received: " ++ pyStr media_id ++ "]") "image"
      (download_whatsapp_media dl.metaFetch dl.bytesFetch media_id))
  else if msg_type = "document" then
    let doc_info := msg.document.getD default
    let media_id := doc_info.media_id
    .ok (mkLog (doc_info.filename.getD "[Document]") "document"
      (download_whatsapp_media dl.metaFetch dl.bytesFetch media_id))
  else if msg_type = "video" then
    let vid_info := msg.video.getD default
    .ok (mkLog "[Video]" "video"
      (download_whatsapp_media dl.metaFetch dl.bytesFetch vid_info.media_id))
  else if msg_type = "audio" then
    let aud_info := msg.audio.getD default
    .ok (mkLog "[Audio]" "audio"
      (download_whatsapp_media dl.metaFetch dl.bytesFetch aud_info.media_id))
  else
    .ok (mkLog "" "unknown" none)

/-- Response of the webhook POST branch: `{"status": "received"}` on
success, else `JsonResponse({"error": ...}, status=400)` from the
catch-all `except`. -/
inductive WebhookPostResponse where
  | received
  | error400 (e : String)
  deriving Repr, DecidableEq

/-- The nested loops flattened: the `(contacts, message)` pairs of a
delivery in processing order. -/
def payloadPairs (p : WebhookPayload) : List (List Contact × InboundMsg) :=
  (p.entry.flatMap fun e =>
    e.changes.flatMap fun c =>
      c.value.messages.map fun m => (c.value.contacts, m))

/-- Runs the message loop over the flattened pairs: each processed
message is persisted immediately (`objects.create` commits row by row),
so rows created before a raised `KeyError` survive the abort.  Returns
the error of the first malformed message (if any) and the final log
table.  Timestamps continue from `now`, one tick per created row. -/
def run_webhook_msgs (norm : String → String) (dl : MediaOracles) :
    List (List Contact × InboundMsg) → Nat → List SmsWhatsAppLog →
    Option String × List SmsWhatsAppLog
  | [], _, log => (none, log)
  | (contacts, m) :: rest, now, log =>
    match process_inbound_msg norm dl contacts now m with
    | .error e => (some e, log)
    | .ok row => run_webhook_msgs norm dl rest (now + 1) (log ++ [row])

/-- The POST branch of `whatsapp_webhook` (views.py lines 259-345) on an
already-parsed payload: returns the HTTP response and the log table
after the delivery. -/
def whatsapp_webhook_post (norm : String → String) (dl : MediaOracles)
    (payload : WebhookPayload) (now : Nat) (log : List SmsWhatsAppLog) :
    WebhookPostResponse × List SmsWhatsAppLog :=
  match run_webhook_msgs norm dl (payloadPairs payload) now log with
  | (none, log') => (.received, log')
  | (some e, log') => (.error400 e, log')

/-! ### Chat dashboard contact list (`chat_dashboard`, views.py lines 120-142) -/

/-- The dedup loop of `chat_dashboard`: `raws` is the list of distinct
raw `mobile` values from the DB (ordered by latest `sent_at`, which the
dedup does not depend on), `seen` the accumulating set (as a list), and
the result the `mobile_list` of normalized numbers. -/
def build_mobile_list (norm : String → String) (seen : List String) :
    List String → List String
  | [] => []
  | m :: ms =>
    let normalized := norm m
    if normalized ∈ seen then build_mobile_list norm seen ms
    else normalized :: build_mobile_list norm (normalized :: seen) ms

/-- `chat_dashboard`'s contact list for a given list of distinct raw
mobiles. -/
def chat_dashboard_mobiles (norm : String → String) (raws : List String) :
    List String :=
  build_mobile_list norm [] raws

/-! ### Chat messages API (`chat_messages_api`, views.py lines 148-184) -/

/-- One element of the JSON `messages` array the API returns. -/
structure ChatMessageJson where
  customer_name : Option String
  mobile : String
  sent_text_message : String
  message_type : String
  sent_at : Nat
  message_id : String
  content_type : String
  media_file : String
  deriving Repr, DecidableEq

/-- The placeholder-to-emoji rewriting of `display_text`. -/
def display_text_of (raw : String) : String :=
  if raw.startsWith "[Image received" then "📷 Image"
  else if raw.startsWith "[Audio" then "🎧 Audio"
  else if raw.startsWith "[Video" then "🎬 Video"
  else if raw.startsWith "[Document" then "📄 Document"
  else raw

/-- Serialization of one log row into the API's JSON shape.  `mediaUrl`
models Django's `FieldFile.url` for a stored filename. -/
def to_chat_json (mediaUrl : String → String) (msg : SmsWhatsAppLog) :
    ChatMessageJson :=
  { customer_name := msg.customer_name
    mobile := msg.mobile
    sent_text_message := display_text_of msg.sent_text_message
    message_type := msg.message_type
    sent_at := msg.sent_at
    message_id := msg.message_id
    content_type := if msg.content_type = "" then "text" else msg.content_type
    media_file :=
      match msg.media_file with
      | some (filename, _) => mediaUrl filename
      | none => "" }

/-- `order_by("sent_at")`: a sort of the filtered rows on `sent_at`,
modelled as insertion sort. -/
def insert_by_sent_at (e : SmsWhatsAppLog) :
    List SmsWhatsAppLog → List SmsWhatsAppLog
  | [] => [e]
  | x :: xs =>
    if e.sent_at ≤ x.sent_at then e :: x :: xs
    else x :: insert_by_sent_at e xs

def sort_by_sent_at (l : List SmsWhatsAppLog) : List SmsWhatsAppLog :=
  l.foldr insert_by_sent_at []

/-- `chat_messages_api`: normalize the path parameter, filter the log by
that mobile, order by `sent_at`, serialize. -/
def chat_messages_api (norm : String → String) (mediaUrl : String → String)
    (mobile : String) (log : List SmsWhatsAppLog) : List ChatMessageJson :=
  let normalized := norm mobile
  (sort_by_sent_at (log.filter fun e => e.mobile = normalized)).map
    (to_chat_json mediaUrl)

/-! ### Reply endpoint (`send_reply_api`, views.py lines 188-228) -/

/-- The parsed JSON body: `payload.get("mobile", "")` and
`payload.get("text", "")`, both optional strings. -/
structure ReplyPayload where
  mobile : Option String
  text : Option String
  deriving Repr, DecidableEq

/-- One element of the provider response's `messages` array; only
`.get("id", "")` is read. -/
structure ApiMessage where
  id : Option String
  deriving Repr, DecidableEq

/-- The provider's JSON response to a successful send;
`"messages" in api_resp` may be false, hence the `Option`. -/
structure ApiResponse where
  messages : Option (List ApiMessage)
  deriving Repr, DecidableEq

/-- Responses of `send_reply_api`. -/
inductive ReplyResponse where
  /-- `HttpResponseBadRequest` -/
  | badRequest (msg : String)
  /-- `JsonResponse({"status": "ok", "api_response": ...})` -/
  | ok (api_response : ApiResponse)
  /-- `JsonResponse({"error": "HTTP error", "detail": ...}, status=500)` -/
  | httpError500 (detail : String)
  /-- `JsonResponse({"error": ...}, status=500)` from the catch-all -/
  | error500 (e : String)
  deriving Repr, DecidableEq

/-- `send_reply_api`.  `body` is `none` when `json.loads` raises (caught
by the catch-all `except`, a 500).  `provider` is the outcome of
`send_whatsapp_text(mobile, text)`: `Except.error` is a raised
`requests.HTTPError`.  Returns the response together with the list of
`SmsWhatsAppLog` rows created (empty or a singleton). -/
def send_reply_api (norm : String → String)
    (provider : String → String → Except String ApiResponse)
    (method : String) (body : Option ReplyPayload) (now : Nat) :
    ReplyResponse × List SmsWhatsAppLog :=
  if method ≠ "POST" then (.badRequest "POST required.", [])
  else
    match body with
    | none => (.error500 "Expecting value", [])
    | some payload =>
      let mobile := pyStrip (payload.mobile.getD "")
      let text := pyStrip (payload.text.getD "")
      if mobile = "" ∨ text = "" then
        (.badRequest "mobile and text required.", [])
      else
        let mobile' := norm mobile
        match provider mobile' text with
        | .error e => (.httpError500 e, [])
        | .ok api_resp =>
          let msg_id :=
            match api_resp.messages with
            | some (m :: _) => m.id.getD ""
            | _ => ""
          (.ok api_resp,
            [{ customer_name := some ""
               mobile := mobile'
               template_name := "manual"
               sent_text_message := text
               status := if msg_id ≠ "" then "Delivered" else "Sent"
               message_id := msg_id
               message_type := "Sent"
               content_type := ""
               media_file := none
               sent_at := now }])

/-! ### Derived helpers used by the statements below -/

/-- The media id the webhook passes to `download_whatsapp_media` for a
media-bearing message of the given type tag. -/
def media_id_of (tag : String) (msg : InboundMsg) : Option String :=
  if tag = "image" then (msg.image.getD default).media_id
  else if tag = "document" then (msg.document.getD default).media_id
  else if tag = "video" then (msg.video.getD default).media_id
  else (msg.audio.getD default).media_id

/-- The placeholder text the webhook stores for a media-bearing message
of the given type tag. -/
def placeholder_text_of (tag : String) (msg : InboundMsg) : String :=
  if tag = "image" then "[Image received: " ++ pyStr (msg.image.getD default).media_id ++ "]"
  else if tag = "document" then (msg.document.getD default).filename.getD "[Document]"
  else if tag = "video" then "[Video]"
  else "[Audio]"

/-- An inbound message with all JSON sub-objects absent, of the given
type tag. -/
def bareMsg (tag : Option String) : InboundMsg :=
  { mfrom := some "+91 98765-43210"
    mid := some "wamid.test"
    mtype := tag
    text := none
    interactive := none
    image := none
    document := none
    video := none
    audio := none }

/-- A well-formed inbound text message (fixture). -/
def goodTextMsg (i : String) : InboundMsg :=
  { bareMsg (some "text") with
      mid := some ("wamid." ++ i)
      text := some ⟨some ("hello " ++ i)⟩ }

/-- A malformed inbound event: `type` is `"text"` but the `"text"`
object is missing, so `msg["text"]` raises `KeyError` (fixture). -/
def badTextMsg : InboundMsg := bareMsg (some "text")

/-- Media oracles on which both network steps raise (fixture). -/
def failingMedia : MediaOracles :=
  ⟨fun _ => .error "HTTPError", fun _ => .error "HTTPError"⟩

/-- An inbound image message with a media id (fixture). -/
def imageMsg : InboundMsg :=
  { bareMsg (some "image") with image := some ⟨some "MID1", none⟩ }

/-- A delivery with a single change carrying the given messages and one
contact (fixture). -/
def mkPayload (msgs : List InboundMsg) : WebhookPayload :=
  ⟨[⟨[⟨⟨msgs, [⟨some "Alice"⟩]⟩⟩]⟩]⟩

/-! ## Theorems -/

/-- C5: the webhook GET branch echoes the supplied `hub.challenge` value
iff `hub.mode = "subscribe"` and `hub.verify_token` equals the
configured secret; every other combination is answered with the
"Invalid verification." bad-request response. -/
theorem webhook_get_verification_iff (verify_token : String)
    (mode token challenge : Option String) :
    (whatsapp_webhook_get verify_token mode token challenge =
        .challengeEcho challenge ↔
      mode = some "subscribe" ∧ token = some verify_token) ∧
    (¬ (mode = some "subscribe" ∧ token = some verify_token) →
      whatsapp_webhook_get verify_token mode token challenge =
        .badRequest "Invalid verification.") := by
  constructor
  · unfold whatsapp_webhook_get
    split
    · simp_all
    · simp_all
  · intro h
    unfold whatsapp_webhook_get
    rw [if_neg h]

/-- Witness for `webhook_get_verification_iff` at a concrete wrong
token. -/
theorem webhook_get_verification_iff_witness :
    whatsapp_webhook_get "tok" (some "subscribe") (some "bad") (some "c") =
      .badRequest "Invalid verification." :=
  (webhook_get_verification_iff "tok" (some "subscribe") (some "bad")
    (some "c")).2 (by decide)

/-- C8: an outbound free-text send issues a POST whose JSON body is
exactly `{messaging_product: "whatsapp", to: number, type: "text",
text: {body: text}}` and whose headers carry the bearer token. -/
theorem send_whatsapp_text_request_shape
    (access_token phone_number_id to_number text_body : String)
    (h1 : access_token ≠ "") (h2 : phone_number_id ≠ "") :
    send_whatsapp_text_request access_token phone_number_id to_number
        text_body =
      .ok
        { method := "POST"
          url := "https://graph.facebook.com/v17.0/" ++ phone_number_id ++
            "/messages"
          headers :=
            [("Authorization", "Bearer " ++ access_token),
             ("Content-Type", "application/json")]
          body :=
            { messaging_product := "whatsapp"
              to_number := to_number
              msg_type := "text"
              text_body := text_body } } := by
  unfold send_whatsapp_text_request
  rw [if_neg]
  push_neg
  exact ⟨h1, h2⟩

/-- Witness for `send_whatsapp_text_request_shape` at concrete
credentials. -/
theorem send_whatsapp_text_request_shape_witness :
    send_whatsapp_text_request "TOKEN" "12345" "919876543210" "hi" =
      .ok
        { method := "POST"
          url := "https://graph.facebook.com/v17.0/12345/messages"
          headers :=
            [("Authorization", "Bearer TOKEN"),
             ("Content-Type", "application/json")]
          body :=
            { messaging_product := "whatsapp"
              to_number := "919876543210"
              msg_type := "text"
              text_body := "hi" } } :=
  send_whatsapp_text_request_shape "TOKEN" "12345" "919876543210" "hi"
    (by decide) (by decide)

/-- Invariant of the `chat_dashboard` dedup loop: the produced list has
no duplicates and avoids everything already seen. -/
theorem build_mobile_list_nodup_aux (norm : String → String) :
    ∀ (ms seen : List String),
      (build_mobile_list norm seen ms).Nodup ∧
      ∀ x ∈ build_mobile_list norm seen ms, x ∉ seen := by
  intro ms
  induction ms with
  | nil => intro seen; simp [build_mobile_list]
  | cons m ms ih =>
    intro seen
    by_cases h : norm m ∈ seen
    · simpa [build_mobile_list, h] using ih seen
    · have h2 := ih (norm m :: seen)
      rw [build_mobile_list, if_neg h]
      refine ⟨List.nodup_cons.mpr ⟨fun hx => ?_, h2.1⟩, ?_⟩
      · exact (h2.2 _ hx) (List.mem_cons_self _ _)
      · intro x hx
        rcases List.mem_cons.mp hx with rfl | hx
        · exact h
        · intro hseen
          exact (h2.2 _ hx) (List.mem_cons_of_mem _ hseen)

/-- C10: the contact list `chat_dashboard` renders contains each
normalized mobile number at most once, for every log state (any list of
raw mobile values and any normalizer). -/
theorem chat_dashboard_mobiles_no_duplicates (norm : String → String)
    (raws : List String) : (chat_dashboard_mobiles norm raws).Nodup :=
  (build_mobile_list_nodup_aux norm raws []).1

/-- C4 counterexample: with the report files present on disk, two
distinct job ids are served the very same artifact paths
(`success_report.xlsx` / `failed_report.xlsx`), so the served artifact
is not keyed by the requested job id. -/
theorem download_reports_not_keyed_counterexample :
    download_success_report (fun _ => true) "job-1" =
      .file "success_report.xlsx" "success_report_job-1.xlsx" ∧
    download_success_report (fun _ => true) "job-2" =
      .file "success_report.xlsx" "success_report_job-2.xlsx" ∧
    download_failed_report (fun _ => true) "job-1" =
      .file "failed_report.xlsx" "failed_report_job-1.xlsx" ∧
    download_failed_report (fun _ => true) "job-2" =
      .file "failed_report.xlsx" "failed_report_job-2.xlsx" ∧
    ("job-1" : String) ≠ "job-2" :=
  ⟨rfl, rfl, rfl, rfl, by decide⟩

/-- C4 amended: each report download serves one fixed global artifact
(path `success_report.xlsx` resp. `failed_report.xlsx`) independent of
the requested job id — only the suggested download filename embeds the
job id — and answers 404 when that file is absent. -/
theorem download_reports_fixed_artifact (file_exists : String → Bool)
    (job_id : String) :
    (file_exists "success_report.xlsx" = true →
      download_success_report file_exists job_id =
        .file "success_report.xlsx"
          ("success_report_" ++ job_id ++ ".xlsx")) ∧
    (file_exists "success_report.xlsx" = false →
      download_success_report file_exists job_id =
        .http404 "Success report not found.") ∧
    (file_exists "failed_report.xlsx" = true →
      download_failed_report file_exists job_id =
        .file "failed_report.xlsx"
          ("failed_report_" ++ job_id ++ ".xlsx")) ∧
    (file_exists "failed_report.xlsx" = false →
      download_failed_report file_exists job_id =
        .http404 "Failed report not found.") := by
  refine ⟨fun h => ?_, fun h => ?_, fun h => ?_, fun h => ?_⟩ <;>
    simp [download_success_report, download_failed_report, h]

/-- Witness for `download_reports_fixed_artifact` with both files
present and job id `"j7"`. -/
theorem download_reports_fixed_artifact_witness :
    download_success_report (fun _ => true) "j7" =
      .file "success_report.xlsx" "success_report_j7.xlsx" ∧
    download_failed_report (fun _ => true) "j7" =
      .file "failed_report.xlsx" "failed_report_j7.xlsx" :=
  ⟨(download_reports_fixed_artifact (fun _ => true) "j7").1 rfl,
   (download_reports_fixed_artifact (fun _ => true) "j7").2.2.1 rfl⟩

/-- C3 counterexample: for a job with `total_customers = 2`,
`sent_count = 1`, `failed_count = 1`, the status endpoint displays 50%,
whereas `(sent_count + failed_count)` out of `total_customers` is 100%:
the observable progress ignores `failed_count`. -/
theorem job_status_progress_counterexample :
    job_status_progress
        { total_customers := 2, sent_count := 1, failed_count := 1,
          status := "Completed" } = 50 ∧
    round2 (((1 : ℚ) + 1) / 2 * 100) = 100 := by
  constructor
  · show round2 ((1 : ℚ) / 2 * 100) = 50
    norm_num [round2]
  · norm_num [round2]

/-- `round2` is monotone. -/
theorem round2_mono {a b : ℚ} (h : a ≤ b) : round2 a ≤ round2 b := by
  unfold round2
  have hf : (⌊a * 100 + 1/2⌋ : ℤ) ≤ ⌊b * 100 + 1/2⌋ :=
    Int.floor_le_floor (by linarith)
  have hc : ((⌊a * 100 + 1/2⌋ : ℤ) : ℚ) ≤ ((⌊b * 100 + 1/2⌋ : ℤ) : ℚ) :=
    Int.cast_le.mpr hf
  linarith

/-- `round2` never pushes a value that is at most 100 above 100. -/
theorem round2_le_100 {a : ℚ} (h : a ≤ 100) : round2 a ≤ 100 := by
  unfold round2
  have hf : (⌊a * 100 + 1/2⌋ : ℤ) ≤ ⌊(10000 : ℚ) + 1/2⌋ :=
    Int.floor_le_floor (by linarith)
  have h10 : ⌊(10000 : ℚ) + 1/2⌋ = 10000 := by norm_num
  rw [h10] at hf
  have hc : ((⌊a * 100 + 1/2⌋ : ℤ) : ℚ) ≤ 10000 := by exact_mod_cast hf
  linarith

/-- C3 amended: the progress the status endpoint exposes is
`sent_count` alone out of `total_customers` (as a rounded percentage):
it is monotone in `sent_count` (for a fixed total) and never exceeds
100% as long as `sent_count ≤ total_customers`.  (`failed_count` does
not enter the displayed value; the incrementing task code is outside
`src/`, so monotonicity over time is stated as monotonicity in the
counter the spec declares never-decreasing.) -/
theorem job_status_progress_monotone_bounded (job job' : BulkJob)
    (htot : job'.total_customers = job.total_customers)
    (hle : job.sent_count ≤ job'.sent_count)
    (hbound : job.sent_count ≤ job.total_customers) :
    job_status_progress job ≤ job_status_progress job' ∧
    job_status_progress job ≤ 100 := by
  unfold job_status_progress
  rcases Nat.eq_zero_or_pos job.total_customers with hz | hp
  · rw [hz] at hbound
    have hz' : job.sent_count = 0 := Nat.le_zero.mp hbound
    simp [hz, htot ▸ hz]
  · have hp' : job'.total_customers > 0 := htot ▸ hp
    rw [if_pos hp, if_pos hp']
    have hT : (0 : ℚ) < (job.total_customers : ℚ) := by exact_mod_cast hp
    have hdiv : (job.sent_count : ℚ) / (job.total_customers : ℚ) ≤
        (job'.sent_count : ℚ) / (job'.total_customers : ℚ) := by
      rw [htot]
      gcongr
    have hone : (job.sent_count : ℚ) / (job.total_customers : ℚ) ≤ 1 := by
      rw [div_le_one hT]
      exact_mod_cast hbound
    constructor
    · exact round2_mono (by nlinarith)
    · exact round2_le_100 (by nlinarith)

/-- Witness for `job_status_progress_monotone_bounded` at two concrete
job states. -/
theorem job_status_progress_monotone_bounded_witness :
    job_status_progress ⟨2, 1, 0, "Running"⟩ ≤
      job_status_progress ⟨2, 2, 0, "Completed"⟩ ∧
    job_status_progress ⟨2, 1, 0, "Running"⟩ ≤ 100 :=
  job_status_progress_monotone_bounded ⟨2, 1, 0, "Running"⟩
    ⟨2, 2, 0, "Completed"⟩ rfl (by decide) (by decide)

/-- C1 counterexample: a delivery whose first event is malformed (type
`"text"` with no `"text"` object) followed by three well-formed text
messages persists zero rows — not three — and answers 400: the single
`try/except` around the whole loop aborts sibling events. -/
theorem webhook_batch_isolation_counterexample :
    (whatsapp_webhook_post format_mobile failingMedia
        (mkPayload [badTextMsg, goodTextMsg "1", goodTextMsg "2",
          goodTextMsg "3"]) 0 []).2.length = 0 ∧
    (whatsapp_webhook_post format_mobile failingMedia
        (mkPayload [badTextMsg, goodTextMsg "1", goodTextMsg "2",
          goodTextMsg "3"]) 0 []).1 = .error400 "KeyError: text" := by
  constructor <;> rfl

/-- Auxiliary induction: running the message loop on well-formed events
followed by a malformed one persists exactly the well-formed prefix and
stops with the malformed event's error. -/
theorem run_webhook_first_malformed (norm : String → String)
    (dl : MediaOracles) (cbad : List Contact) (bad : InboundMsg)
    (rest : List (List Contact × InboundMsg)) (e : String)
    (hbad : ∀ t, process_inbound_msg norm dl cbad t bad = .error e) :
    ∀ (good : List (List Contact × InboundMsg)),
      (∀ p ∈ good, ∀ t, ∃ row,
        process_inbound_msg norm dl p.1 t p.2 = .ok row) →
      ∀ (now : Nat) (log : List SmsWhatsAppLog),
        (run_webhook_msgs norm dl (good ++ (cbad, bad) :: rest) now
          log).1 = some e ∧
        (run_webhook_msgs norm dl (good ++ (cbad, bad) :: rest) now
          log).2.length = log.length + good.length := by
  intro good
  induction good with
  | nil =>
    intro _ now log
    simp [run_webhook_msgs, hbad now]
  | cons p good ih =>
    intro hgood now log
    obtain ⟨c, m⟩ := p
    obtain ⟨row, hrow⟩ := hgood ⟨c, m⟩ (List.mem_cons_self _ _) now
    have h := ih (fun q hq t => hgood q (List.mem_cons_of_mem _ hq) t)
      (now + 1) (log ++ [row])
    rw [List.cons_append]
    rw [run_webhook_msgs, hrow]
    refine ⟨h.1, ?_⟩
    rw [h.2]
    simp [List.length_append]
    omega

/-- C1 amended: events of one delivery are processed in order with
row-by-row persistence but no per-event error containment: every event
strictly before the first malformed one is persisted, and the malformed
event aborts the remainder of the delivery with a 400 response (so a
malformed event placed after three well-formed siblings yields three
rows, placed before them zero). -/
theorem webhook_first_malformed_aborts (norm : String → String)
    (dl : MediaOracles) (payload : WebhookPayload) (now : Nat)
    (log : List SmsWhatsAppLog)
    (good : List (List Contact × InboundMsg)) (cbad : List Contact)
    (bad : InboundMsg) (rest : List (List Contact × InboundMsg))
    (e : String)
    (hsplit : payloadPairs payload = good ++ (cbad, bad) :: rest)
    (hgood : ∀ p ∈ good, ∀ t, ∃ row,
      process_inbound_msg norm dl p.1 t p.2 = .ok row)
    (hbad : ∀ t, process_inbound_msg norm dl cbad t bad = .error e) :
    (whatsapp_webhook_post norm dl payload now log).1 = .error400 e ∧
    (whatsapp_webhook_post norm dl payload now log).2.length =
      log.length + good.length := by
  obtain ⟨h1, h2⟩ := run_webhook_first_malformed norm dl cbad bad rest e
    hbad good hgood now log
  unfold whatsapp_webhook_post
  rw [hsplit]
  rcases hrun : run_webhook_msgs norm dl (good ++ (cbad, bad) :: rest)
    now log with ⟨err, log'⟩
  rw [hrun] at h1 h2
  simp only at h1 h2
  subst h1
  exact ⟨rfl, h2⟩

/-- Witness for `webhook_first_malformed_aborts`: the malformed event
placed last, after three well-formed events, persists exactly the three
well-formed rows and answers 400. -/
theorem webhook_first_malformed_aborts_witness :
    (whatsapp_webhook_post format_mobile failingMedia
        (mkPayload [goodTextMsg "1", goodTextMsg "2", goodTextMsg "3",
          badTextMsg]) 0 []).1 = .error400 "KeyError: text" ∧
    (whatsapp_webhook_post format_mobile failingMedia
        (mkPayload [goodTextMsg "1", goodTextMsg "2", goodTextMsg "3",
          badTextMsg]) 0 []).2.length = 3 :=
  webhook_first_malformed_aborts format_mobile failingMedia
    (mkPayload [goodTextMsg "1", goodTextMsg "2", goodTextMsg "3",
      badTextMsg]) 0 []
    [([⟨some "Alice"⟩], goodTextMsg "1"),
     ([⟨some "Alice"⟩], goodTextMsg "2"),
     ([⟨some "Alice"⟩], goodTextMsg "3")]
    [⟨some "Alice"⟩] badTextMsg [] "KeyError: text"
    rfl
    (by
      intro p hp t
      fin_cases hp <;> exact ⟨_, rfl⟩)
    (fun _ => rfl)

/-- C6: an inbound message whose type tag lies outside the closed set
{text, interactive, image, document, video, audio} is persisted as a
passthrough row with `content_type = "unknown"` rather than raising,
and the loop continues with the remaining events of the batch. -/
theorem unknown_type_passthrough (norm : String → String)
    (dl : MediaOracles) (contacts : List Contact) (now : Nat)
    (msg : InboundMsg) (tag : String)
    (rest : List (List Contact × InboundMsg))
    (log : List SmsWhatsAppLog)
    (htag : msg.mtype = some tag)
    (hunk : tag ∉ ["text", "interactive", "image", "document", "video",
      "audio"]) :
    ∃ row, process_inbound_msg norm dl contacts now msg = .ok row ∧
      row.content_type = "unknown" ∧
      run_webhook_msgs norm dl ((contacts, msg) :: rest) now log =
        run_webhook_msgs norm dl rest (now + 1) (log ++ [row]) := by
  obtain ⟨h1, h2, h3, h4, h5, h6⟩ :
      ¬tag = "text" ∧ ¬tag = "interactive" ∧ ¬tag = "image" ∧
      ¬tag = "document" ∧ ¬tag = "video" ∧ ¬tag = "audio" := by
    simpa [not_or] using hunk
  have hproc : process_inbound_msg norm dl contacts now msg =
      .ok (mk_received_log norm contacts now msg "" "unknown" none) := by
    simp [process_inbound_msg, htag, h1, h2, h3, h4, h5, h6]
  exact ⟨_, hproc, rfl, by simp [run_webhook_msgs, hproc]⟩

/-- Witness for `unknown_type_passthrough` with the unrecognized tag
`"sticker"`. -/
theorem unknown_type_passthrough_witness :
    ∃ row, process_inbound_msg format_mobile failingMedia
        [⟨some "Alice"⟩] 5 (bareMsg (some "sticker")) = .ok row ∧
      row.content_type = "unknown" ∧
      run_webhook_msgs format_mobile failingMedia
          [([⟨some "Alice"⟩], bareMsg (some "sticker"))] 5 [] =
        run_webhook_msgs format_mobile failingMedia [] 6 ([] ++ [row]) :=
  unknown_type_passthrough format_mobile failingMedia [⟨some "Alice"⟩] 5
    (bareMsg (some "sticker")) "sticker" [] [] rfl (by decide)

/-- Failure of either media-retrieval step makes
`download_whatsapp_media` return `none` (the catch-all `except`). -/
theorem download_whatsapp_media_none_of_fail
    (metaFetch : String → Except String MediaMeta)
    (bytesFetch : Option String → Except String String)
    (media_id : Option String)
    (h : (∃ e, metaFetch (pyStr media_id) = .error e) ∨
      (∃ meta e, metaFetch (pyStr media_id) = .ok meta ∧
        bytesFetch meta.url = .error e)) :
    download_whatsapp_media metaFetch bytesFetch media_id = none := by
  rcases h with ⟨e, he⟩ | ⟨meta, e, hm, hb⟩
  · simp [download_whatsapp_media, he]
  · simp [download_whatsapp_media, hm, hb]

/-- C2: for a media-bearing inbound message (image, document, audio or
video), failure of either media-retrieval step (metadata fetch or bytes
download) still produces a persisted row with the type's content_type,
its placeholder text, and no media file attached; the delivery is
answered 200. -/
theorem media_fetch_failure_still_logs (norm : String → String)
    (dl : MediaOracles) (contacts : List Contact) (now : Nat)
    (msg : InboundMsg) (tag : String) (log : List SmsWhatsAppLog)
    (htag : msg.mtype = some tag)
    (hmedia : tag = "image" ∨ tag = "document" ∨ tag = "audio" ∨
      tag = "video")
    (hfail : (∃ e, dl.metaFetch (pyStr (media_id_of tag msg)) =
        .error e) ∨
      (∃ meta e, dl.metaFetch (pyStr (media_id_of tag msg)) = .ok meta ∧
        dl.bytesFetch meta.url = .error e)) :
    ∃ row, process_inbound_msg norm dl contacts now msg = .ok row ∧
      row.content_type = tag ∧
      row.sent_text_message = placeholder_text_of tag msg ∧
      row.media_file = none ∧
      whatsapp_webhook_post norm dl ⟨[⟨[⟨⟨[msg], contacts⟩⟩]⟩]⟩ now log =
        (.received, log ++ [row]) := by
  have hdl := download_whatsapp_media_none_of_fail dl.metaFetch
    dl.bytesFetch (media_id_of tag msg) hfail
  rcases hmedia with rfl | rfl | rfl | rfl
  · simp [media_id_of] at hdl
    have hproc : process_inbound_msg norm dl contacts now msg =
        .ok (mk_received_log norm contacts now msg
          ("[Image received: " ++ pyStr (msg.image.getD default).media_id
            ++ "]") "image"
          (download_whatsapp_media dl.metaFetch dl.bytesFetch
            (msg.image.getD default).media_id)) := by
      simp [process_inbound_msg, htag]
    rw [hdl] at hproc
    exact ⟨_, hproc, rfl, by simp [mk_received_log, placeholder_text_of], rfl,
      by simp [whatsapp_webhook_post, payloadPairs, run_webhook_msgs,
        hproc]⟩
  · simp [media_id_of] at hdl
    have hproc : process_inbound_msg norm dl contacts now msg =
        .ok (mk_received_log norm contacts now msg
          ((msg.document.getD default).filename.getD "[Document]")
          "document"
          (download_whatsapp_media dl.metaFetch dl.bytesFetch
            (msg.document.getD default).media_id)) := by
      simp [process_inbound_msg, htag]
    rw [hdl] at hproc
    exact ⟨_, hproc, rfl, by simp [mk_received_log, placeholder_text_of], rfl,
      by simp [whatsapp_webhook_post, payloadPairs, run_webhook_msgs,
        hproc]⟩
  · simp [media_id_of] at hdl
    have hproc : process_inbound_msg norm dl contacts now msg =
        .ok (mk_received_log norm contacts now msg "[Audio]" "audio"
          (download_whatsapp_media dl.metaFetch dl.bytesFetch
            (msg.audio.getD default).media_id)) := by
      simp [process_inbound_msg, htag]
    rw [hdl] at hproc
    exact ⟨_, hproc, rfl, by simp [mk_received_log, placeholder_text_of], rfl,
      by simp [whatsapp_webhook_post, payloadPairs, run_webhook_msgs,
        hproc]⟩
  · simp [media_id_of] at hdl
    have hproc : process_inbound_msg norm dl contacts now msg =
        .ok (mk_received_log norm contacts now msg "[Video]" "video"
          (download_whatsapp_media dl.metaFetch dl.bytesFetch
            (msg.video.getD default).media_id)) := by
      simp [process_inbound_msg, htag]
    rw [hdl] at hproc
    exact ⟨_, hproc, rfl, by simp [mk_received_log, placeholder_text_of], rfl,
      by simp [whatsapp_webhook_post, payloadPairs, run_webhook_msgs,
        hproc]⟩

/-- Witness for `media_fetch_failure_still_logs`: an image message whose
metadata fetch raises is still logged with `content_type = "image"`,
the placeholder text and no media file. -/
theorem media_fetch_failure_still_logs_witness :
    ∃ row, process_inbound_msg format_mobile failingMedia
        [⟨some "Alice"⟩] 0 imageMsg = .ok row ∧
      row.content_type = "image" ∧
      row.sent_text_message = placeholder_text_of "image" imageMsg ∧
      row.media_file = none ∧
      whatsapp_webhook_post format_mobile failingMedia
          ⟨[⟨[⟨⟨[imageMsg], [⟨some "Alice"⟩]⟩⟩]⟩]⟩ 0 [] =
        (.received, [] ++ [row]) :=
  media_fetch_failure_still_logs format_mobile failingMedia
    [⟨some "Alice"⟩] 0 imageMsg "image" [] rfl (Or.inl rfl)
    (Or.inl ⟨"HTTPError", rfl⟩)

/-- Sorting on `sent_at` leaves a list whose `sent_at` values are
already strictly increasing unchanged. -/
theorem sort_by_sent_at_sorted_id :
    ∀ l : List SmsWhatsAppLog,
      l.Pairwise (fun a b => a.sent_at < b.sent_at) →
      sort_by_sent_at l = l := by
  intro l
  induction l with
  | nil => intro _; rfl
  | cons x xs ih =>
    intro h
    rw [List.pairwise_cons] at h
    have hs : sort_by_sent_at xs = xs := ih h.2
    show insert_by_sent_at x (sort_by_sent_at xs) = x :: xs
    rw [hs]
    cases xs with
    | nil => rfl
    | cons y ys =>
      have hxy : x.sent_at ≤ y.sent_at :=
        le_of_lt (h.1 y (List.mem_cons_self _ _))
      simp [insert_by_sent_at, hxy]

/-- C7: when the entries stored for a number carry strictly increasing
creation times (as appending them in sequence produces), the chat query
returns exactly those entries in creation order. -/
theorem chat_messages_in_creation_order (norm mediaUrl : String → String)
    (mobile : String) (log : List SmsWhatsAppLog)
    (h : (log.filter fun e => e.mobile = norm mobile).Pairwise
      (fun a b => a.sent_at < b.sent_at)) :
    chat_messages_api norm mediaUrl mobile log =
      (log.filter fun e => e.mobile = norm mobile).map
        (to_chat_json mediaUrl) := by
  simp only [chat_messages_api]
  rw [sort_by_sent_at_sorted_id _ h]

/-- Witness for `chat_messages_in_creation_order`: three entries for one
number appended at times 0, 1, 2 come back in that exact order. -/
theorem chat_messages_in_creation_order_witness :
    chat_messages_api format_mobile (fun s => s) "+91 98765-43210"
        [⟨some "A", "919876543210", "incoming", "m1", "Received",
            "Received", "id1", "text", none, 0⟩,
         ⟨some "A", "919876543210", "incoming", "m2", "Received",
            "Received", "id2", "text", none, 1⟩,
         ⟨some "A", "919876543210", "incoming", "m3", "Received",
            "Received", "id3", "text", none, 2⟩] =
      ([⟨some "A", "919876543210", "incoming", "m1", "Received",
            "Received", "id1", "text", none, 0⟩,
         ⟨some "A", "919876543210", "incoming", "m2", "Received",
            "Received", "id2", "text", none, 1⟩,
         ⟨some "A", "919876543210", "incoming", "m3", "Received",
            "Received", "id3", "text", none, 2⟩].filter
          fun e => e.mobile = format_mobile "+91 98765-43210").map
        (to_chat_json fun s => s) :=
  chat_messages_in_creation_order format_mobile (fun s => s)
    "+91 98765-43210"
    [⟨some "A", "919876543210", "incoming", "m1", "Received", "Received",
        "id1", "text", none, 0⟩,
     ⟨some "A", "919876543210", "incoming", "m2", "Received", "Received",
        "id2", "text", none, 1⟩,
     ⟨some "A", "919876543210", "incoming", "m3", "Received", "Received",
        "id3", "text", none, 2⟩]
    (by decide)

/-- C9: the reply endpoint is atomic with respect to the log: a parsed
POST body with a blank mobile or blank text is answered 400 with no row
created; a provider `HTTPError` is answered with the 500 JSON error
with no row created; and a row is created exactly when the provider
send returned successfully (on a parsed POST body). -/
theorem send_reply_atomicity (norm : String → String)
    (provider : String → String → Except String ApiResponse)
    (now : Nat) :
    (∀ p : ReplyPayload,
      (pyStrip (p.mobile.getD "") = "" ∨ pyStrip (p.text.getD "") = "") →
      send_reply_api norm provider "POST" (some p) now =
        (.badRequest "mobile and text required.", [])) ∧
    (∀ (p : ReplyPayload) (e : String),
      pyStrip (p.mobile.getD "") ≠ "" → pyStrip (p.text.getD "") ≠ "" →
      provider (norm (pyStrip (p.mobile.getD "")))
          (pyStrip (p.text.getD "")) = .error e →
      send_reply_api norm provider "POST" (some p) now =
        (.httpError500 e, [])) ∧
    (∀ p : ReplyPayload,
      (send_reply_api norm provider "POST" (some p) now).2 ≠ [] ↔
        (pyStrip (p.mobile.getD "") ≠ "" ∧
          pyStrip (p.text.getD "") ≠ "" ∧
          ∃ r, provider (norm (pyStrip (p.mobile.getD "")))
            (pyStrip (p.text.getD "")) = .ok r)) := by
  refine ⟨?_, ?_, ?_⟩
  · intro p hp
    simp [send_reply_api, hp]
  · intro p e h1 h2 hprov
    simp [send_reply_api, h1, h2, hprov]
  · intro p
    by_cases h1 : pyStrip (p.mobile.getD "") = ""
    · simp [send_reply_api, h1]
    · by_cases h2 : pyStrip (p.text.getD "") = ""
      · simp [send_reply_api, h1, h2]
      · cases hprov : provider (norm (pyStrip (p.mobile.getD "")))
            (pyStrip (p.text.getD "")) with
        | error e => simp [send_reply_api, h1, h2, hprov]
        | ok r => simp [send_reply_api, h1, h2, hprov]

/-- Witness for `send_reply_atomicity`: blank mobile gives 400 and no
row; a provider error gives the 500 JSON error and no row; a successful
provider send creates a row. -/
theorem send_reply_atomicity_witness :
    send_reply_api format_mobile (fun _ _ => .error "401 Client Error")
        "POST" (some ⟨some "  ", some "hello"⟩) 0 =
      (.badRequest "mobile and text required.", []) ∧
    send_reply_api format_mobile (fun _ _ => .error "401 Client Error")
        "POST" (some ⟨some "+91 98765-43210", some "hello"⟩) 0 =
      (.httpError500 "401 Client Error", []) ∧
    (send_reply_api format_mobile
        (fun _ _ => .ok ⟨some [⟨some "wamid.X"⟩]⟩) "POST"
        (some ⟨some "+91 98765-43210", some "hello"⟩) 0).2 ≠ [] :=
  ⟨(send_reply_atomicity format_mobile
      (fun _ _ => .error "401 Client Error") 0).1
      ⟨some "  ", some "hello"⟩ (by decide),
   (send_reply_atomicity format_mobile
      (fun _ _ => .error "401 Client Error") 0).2.1
      ⟨some "+91 98765-43210", some "hello"⟩ "401 Client Error"
      (by decide) (by decide) rfl,
   ((send_reply_atomicity format_mobile
      (fun _ _ => .ok ⟨some [⟨some "wamid.X"⟩]⟩) 0).2.2
      ⟨some "+91 98765-43210", some "hello"⟩).mpr
      ⟨by decide, by decide, ⟨_, rfl⟩⟩⟩

end Whatsapp
